import Mathlib

/-!
# Verification of the spdb cache coordination state machine

A shallow embedding in Lean 4 of `spatialdb/state.py` (class `CacheStateDB`)
and `spatialdb/error.py` (class `SpdbError`) from the spdb repository, with
theorems checking the natural-language specification's claims about the
page-out tracker, the delayed-write queue, the page-in wait loop, the
write-lock, and the error class.

Keys are modelled as lists of characters (`Key`), so that the Python string
operations `split("&", 1)` and `rsplit("&", 1)` become provable list
functions.  The redis state store is modelled as `RedisState`: per-key string
values, sets, lists and TTLs, with the operations the source uses
(`set`/`delete`/`exists`, `sadd`/`srem`/`sdiff`, `rpush`, `expire`).
Pipelined transactions execute their queued commands in order on the state;
the claims under study concern single uninterrupted executions of the
transaction bodies, so the watch/retry machinery shows up only where a claim
mentions it.
-/

/-- Keys and members of the state store are character lists (Python strings). -/
abbrev Key := List Char

/-- The delimiter used by every spdb key namespace. -/
def amp : Char := '&'

/-- Python `s.split(sep, 1)` as the pair (before first sep, after first sep).
If `sep` is absent the whole input is returned as the first component with an
empty second component (the source never calls it that way: every key it
parses contains the delimiter). -/
def splitFirst (sep : Char) : List Char → List Char × List Char
  | [] => ([], [])
  | c :: cs =>
    if c = sep then ([], cs)
    else
      let p := splitFirst sep cs
      (c :: p.1, p.2)

/-- Python `s.rsplit(sep, 1)` as the pair (before last sep, after last sep). -/
def rsplitLast (sep : Char) (l : List Char) : List Char × List Char :=
  let p := splitFirst sep l.reverse
  (p.2.reverse, p.1.reverse)

theorem splitFirst_append (sep : Char) (a b : List Char) (h : sep ∉ a) :
    splitFirst sep (a ++ sep :: b) = (a, b) := by
  induction a with
  | nil => simp [splitFirst]
  | cons c cs ih =>
    have hc : ¬ c = sep := fun hcs => h (hcs ▸ List.mem_cons_self c cs)
    have hcs : sep ∉ cs := fun hm => h (List.mem_cons_of_mem c hm)
    simp [splitFirst, hc, ih hcs]

theorem rsplitLast_append (sep : Char) (a b : List Char) (h : sep ∉ b) :
    rsplitLast sep (a ++ sep :: b) = (a, b) := by
  have hrev : sep ∉ b.reverse := fun hm => h (List.mem_reverse.mp hm)
  have : (a ++ sep :: b).reverse = b.reverse ++ sep :: a.reverse := by
    simp [List.reverse_append]
  simp [rsplitLast, this, splitFirst_append sep b.reverse a.reverse hrev]

/-- State of the redis instance behind `CacheStateDB.status_client`: string
values, sets, lists and TTLs, indexed by key. -/
structure RedisState where
  strings : Key → Option Key
  sets : Key → Finset Key
  lists : Key → List Key
  ttls : Key → Option Nat

/-- The empty redis database. -/
def RedisState.empty : RedisState :=
  ⟨fun _ => none, fun _ => ∅, fun _ => [], fun _ => none⟩

/-- Pointwise update of a key-indexed map. -/
def updFn {α : Type} (f : Key → α) (k : Key) (v : α) : Key → α :=
  fun k2 => if k2 = k then v else f k2

/-- redis `SET key value`. -/
def RedisState.setStr (s : RedisState) (k v : Key) : RedisState :=
  { s with strings := updFn s.strings k (some v) }

/-- redis `DEL key` (removes the key whatever its type, and its TTL). -/
def RedisState.delKey (s : RedisState) (k : Key) : RedisState :=
  { strings := updFn s.strings k none
    sets := updFn s.sets k ∅
    lists := updFn s.lists k []
    ttls := updFn s.ttls k none }

/-- redis `EXISTS key`, true when the key holds a value of any type. -/
def RedisState.existsKey (s : RedisState) (k : Key) : Bool :=
  (s.strings k).isSome || decide (s.sets k ≠ ∅) || decide (s.lists k ≠ [])

/-- redis `SADD key member` (single member). -/
def RedisState.sadd (s : RedisState) (k m : Key) : RedisState :=
  { s with sets := updFn s.sets k (insert m (s.sets k)) }

/-- redis `SREM key member` (single member). -/
def RedisState.srem (s : RedisState) (k m : Key) : RedisState :=
  { s with sets := updFn s.sets k ((s.sets k).erase m) }

/-- redis `EXPIRE key seconds`. -/
def RedisState.expire (s : RedisState) (k : Key) (secs : Nat) : RedisState :=
  { s with ttls := updFn s.ttls k (some secs) }

/-- redis `RPUSH key value` (single value, appended at the tail). -/
def RedisState.rpush (s : RedisState) (k v : Key) : RedisState :=
  { s with lists := updFn s.lists k (s.lists k ++ [v]) }

/-! ## Key constructors used by `CacheStateDB` (state.py)

Each mirrors a Python `format` call in the source.  They are written
right-nested so the grouping matches how `splitFirst`/`rsplitLast` peel the
delimiters off. -/

/-- The scratch/page-out set member `"<time_sample>&<morton>"`
(state.py lines 204, 355, 358, 399). -/
def fmtMember (time_sample morton : Key) : Key :=
  time_sample ++ (amp :: morton)

/-- The page-out set key `"PAGE-OUT&<lookup>&<res>"` (state.py lines 212, 346, 398). -/
def pageOutKeyOf (lookup_key resolution : Key) : Key :=
  "PAGE-OUT".toList ++ (amp :: (lookup_key ++ (amp :: resolution)))

/-- The delayed-write queue key `"DELAYED-WRITE&<lookup>&<res>&<t>&<morton>"`
(state.py line 234). -/
def delayedWriteKeyOf (lookup_key resolution time_sample morton : Key) : Key :=
  "DELAYED-WRITE".toList ++
    (amp :: (lookup_key ++ (amp :: (resolution ++ (amp :: (time_sample ++ (amp :: morton)))))))

/-- The paired resource key `"RESOURCE-DELAYED-WRITE&<lookup>&<res>&<t>&<morton>"`
(state.py line 236). -/
def resourceDelayedWriteKeyOf (lookup_key resolution time_sample morton : Key) : Key :=
  "RESOURCE-DELAYED-WRITE".toList ++
    (amp :: (lookup_key ++ (amp :: (resolution ++ (amp :: (time_sample ++ (amp :: morton)))))))

/-- The write-lock key `"WRITE-LOCK&<lookup>"` (state.py lines 167, 181). -/
def writeLockKey (lookup_key : Key) : Key :=
  "WRITE-LOCK".toList ++ (amp :: lookup_key)

/-- A write-cuboid key `"WRITE-CUBOID&<lookup>&<res>&<t>&<morton>&<uuid>"`,
the shape tabulated in spec section 3 and parsed by
`write_cuboid_key_to_delayed_write_key` and `remove_from_page_out`. -/
def mintWriteCuboidKey (lookup_key resolution time_sample morton u : Key) : Key :=
  "WRITE-CUBOID".toList ++
    (amp :: (lookup_key ++
      (amp :: (resolution ++ (amp :: (time_sample ++ (amp :: (morton ++ (amp :: u)))))))))

/-- The ephemeral page-in channel name `"PAGE-IN-CHANNEL&<uuid hex>"`
(state.py line 57). -/
def pageInChannelName (u : Key) : Key :=
  "PAGE-IN-CHANNEL".toList ++ (amp :: u)

/-! ## CacheStateDB operations on the redis state -/

/-- `CacheStateDB.write_cuboid_key_to_delayed_write_key` (state.py 249-259):
`split("&", 1)[1]` then `rsplit("&", 1)[0]`, prefixed with `DELAYED-WRITE&`. -/
def write_cuboid_key_to_delayed_write_key (write_cuboid_key : Key) : Key :=
  let temp_key := (splitFirst amp write_cuboid_key).2
  let temp_key2 := (rsplitLast amp temp_key).1
  "DELAYED-WRITE".toList ++ (amp :: temp_key2)

/-- `CacheStateDB.add_to_delayed_write` (state.py 219-237): `RPUSH` the
write-cuboid key onto the delayed-write queue, then `SET` the paired resource
key.  Argument order follows the source signature
(write_cuboid_key, lookup_key, resolution, morton, time_sample, resource_str);
note the queue key orders the fields lookup, resolution, time, morton. -/
def add_to_delayed_write (s : RedisState)
    (write_cuboid_key lookup_key resolution morton time_sample resource_str : Key) :
    RedisState :=
  let s1 := s.rpush (delayedWriteKeyOf lookup_key resolution time_sample morton) write_cuboid_key
  s1.setStr (resourceDelayedWriteKeyOf lookup_key resolution time_sample morton) resource_str

/-- `CacheStateDB.project_locked` (state.py 157-168): `bool(EXISTS WRITE-LOCK&<lookup>)`. -/
def project_locked (s : RedisState) (lookup_key : Key) : Bool :=
  s.existsKey (writeLockKey lookup_key)

/-- The value redis-py stores for the Python literal `True` (state.py line 183). -/
def trueLit : Key := "True".toList

/-- `CacheStateDB.set_project_lock` (state.py 170-185): `SET` the write-lock
key when locking, `DEL` it when unlocking. -/
def set_project_lock (s : RedisState) (lookup_key : Key) (locked : Bool) : RedisState :=
  if locked then s.setStr (writeLockKey lookup_key) trueLit
  else s.delKey (writeLockKey lookup_key)

/-- `CacheStateDB.add_to_page_out` (state.py 332-380), one uninterrupted
execution of the watched transaction body (the `WatchError` retry loop
re-runs this same body; the bounded-retry cap is outside the claims proved
here).  Pipeline order: `SADD temp member`, `EXPIRE temp 15`,
`SDIFF temp page_out_key`, `SADD page_out_key member`; the returned flag is
`False` when the diff is non-empty (`len(result[2]) > 0`), else `True`. -/
def add_to_page_out (s : RedisState)
    (temp_page_out_key lookup_key resolution morton time_sample : Key) :
    Bool × RedisState :=
  let page_out_key := pageOutKeyOf lookup_key resolution
  let member := fmtMember time_sample morton
  let s1 := s.sadd temp_page_out_key member
  let s2 := s1.expire temp_page_out_key 15
  let diff := (s2.sets temp_page_out_key) \ (s2.sets page_out_key)
  let s3 := s2.sadd page_out_key member
  (if 0 < diff.card then false else true, s3)

/-- `CacheStateDB.remove_from_page_out` (state.py 382-399): parse the
write-cuboid key (front-trim at the first `&`, then peel uuid, morton,
time_sample, resolution at the last `&`) and `SREM` the member
`"<t>&<morton>"` from `"PAGE-OUT&<lookup>&<res>"`. -/
def remove_from_page_out (s : RedisState) (write_cuboid_key : Key) : RedisState :=
  let parts0 := (splitFirst amp write_cuboid_key).2
  let parts1 := (rsplitLast amp parts0).1
  let p2 := rsplitLast amp parts1
  let morton := p2.2
  let p3 := rsplitLast amp p2.1
  let time_sample := p3.2
  let p4 := rsplitLast amp p3.1
  let lookup := p4.1
  let res := p4.2
  s.srem (pageOutKeyOf lookup res) (fmtMember time_sample morton)

/-! ## The instance's single pub/sub listener slot -/

/-- The pub/sub listener object returned by `status_client.pubsub()`:
the set of names it is subscribed to, and whether it has been closed. -/
structure Listener where
  subscribed : Finset Key
  closed : Bool
deriving DecidableEq

/-- The mutable part of a `CacheStateDB` instance that the page-in channel
methods touch: the single field `self.status_client_listener`,
initialised to `None` in `__init__` (state.py line 48). -/
structure CacheInstance where
  listener : Option Listener
deriving DecidableEq

/-- A fresh instance, as left by `CacheStateDB.__init__`. -/
def CacheInstance.init : CacheInstance := ⟨none⟩

/-- `CacheStateDB.create_page_in_channel` (state.py 50-60): mint the channel
name from a fresh uuid, overwrite `self.status_client_listener` with a new
pubsub object subscribed to that one name, and return the name. -/
def create_page_in_channel (_inst : CacheInstance) (u : Key) : Key × CacheInstance :=
  let channel_name := pageInChannelName u
  (channel_name, { listener := some { subscribed := {channel_name}, closed := false } })

/-- `CacheStateDB.delete_page_in_channel` (state.py 62-72):
`punsubscribe(page_in_channel)` on whatever listener the instance currently
holds, then `close()` it.  `none` models the Python `AttributeError` raised
when no listener has ever been created (`self.status_client_listener is None`).
Note the argument selects only the pattern passed to `punsubscribe`; the
listener acted on is always the instance's current one. -/
def delete_page_in_channel (inst : CacheInstance) (page_in_channel : Key) :
    Option CacheInstance :=
  match inst.listener with
  | none => none
  | some l =>
      some { listener := some { subscribed := l.subscribed.erase page_in_channel
                                closed := true } }

/-! ## The page-in wait loop -/

/-- A message as returned by redis-py `PubSub.get_message`: channel name,
message type and payload (all decoded to strings). -/
structure PubSubMsg where
  channel : Key
  mtype : Key
  data : Key
deriving DecidableEq

/-- How one run of `CacheStateDB.wait_for_page_in` ends. -/
inductive WaitResult where
  /-- All awaited keys were announced; the loop broke out normally. -/
  | success
  /-- The elapsed-time check fired (`SpdbError` with `ASYNC_ERROR`). -/
  | timedOut
  /-- A message from a different channel arrived (`SpdbError` with `ASYNC_ERROR`). -/
  | wrongChannel
  /-- `keys_set.remove` was called on an absent member (Python `KeyError`). -/
  | keyErrorStop
  /-- The observation schedule ran out while the loop was still polling. -/
  | fuelOut
deriving DecidableEq

/-- Result of a `wait_for_page_in` run: how it ended, the keys still awaited,
and whether `delete_page_in_channel` was called on the way out. -/
structure WaitOutcome where
  result : WaitResult
  remaining : Finset Key
  channelDeleted : Bool
deriving DecidableEq

/-- The redis-py message type string for a data delivery (state.py line 111). -/
def msgTypeMessage : Key := "message".toList

/-- `CacheStateDB.wait_for_page_in` (state.py 74-126), driven by a schedule of
per-iteration observations: the wall-clock seconds elapsed since `start_time`
as read at the top of the iteration, and the message `get_message` returns.
Iteration order follows the source exactly: first the elapsed-time check
(delete the channel, then raise `SpdbError`), then the fetch, then the
no-message `continue`, then the channel-equality check (raise without
deleting the channel), then the type check (`continue`), then
`keys_set.remove` (Python `KeyError` when the member is absent), then the
emptiness check (break, then delete the channel after the loop). -/
def wait_for_page_in (page_in_channel : Key) (timeout : Nat) (remaining : Finset Key) :
    List (Nat × Option PubSubMsg) → WaitOutcome
  | [] => ⟨.fuelOut, remaining, false⟩
  | (elapsed, msg) :: rest =>
    if timeout < elapsed then ⟨.timedOut, remaining, true⟩
    else
      match msg with
      | none => wait_for_page_in page_in_channel timeout remaining rest
      | some m =>
        if m.channel ≠ page_in_channel then ⟨.wrongChannel, remaining, false⟩
        else if m.mtype ≠ msgTypeMessage then
          wait_for_page_in page_in_channel timeout remaining rest
        else if m.data ∈ remaining then
          let r := remaining.erase m.data
          if r.card = 0 then ⟨.success, r, true⟩
          else wait_for_page_in page_in_channel timeout r rest
        else ⟨.keyErrorStop, remaining, false⟩

/-! ## The error class (error.py) -/

/-- The Python exception that actually escapes `SpdbError.__init__`. -/
inductive PyExc where
  | indexError
deriving DecidableEq

/-- `SpdbError.__init__` (error.py 27-30): formats
`args[0]`, `args[1]` and `args[2]` into the log line.  Indexing a tuple out
of range raises `IndexError`, which escapes the constructor; otherwise the
formatted log line is produced. -/
def spdbErrorInit (args : List Key) : Except PyExc Key :=
  match args.get? 0 with
  | none => .error .indexError
  | some a0 =>
    match args.get? 1 with
    | none => .error .indexError
    | some a1 =>
      match args.get? 2 with
      | none => .error .indexError
      | some a2 =>
          .ok ("SpdbError - Message: ".toList ++ a0 ++
               " - Description: ".toList ++ a1 ++
               " - Code: ".toList ++ a2)

/-! ## Helper lemmas -/

theorem amp_not_mem_write_cuboid : amp ∉ ("WRITE-CUBOID".toList : List Char) := by
  decide

/-- Parsing a minted write-cuboid key inside `remove_from_page_out` recovers
the page-out key and member of the tuple, for delimiter-free field values
(the lookup key may contain delimiters). -/
theorem remove_from_page_out_parse (s2 : RedisState) (lookup res t m u : Key)
    (hres : amp ∉ res) (ht : amp ∉ t) (hm : amp ∉ m) (hu : amp ∉ u) :
    remove_from_page_out s2 (mintWriteCuboidKey lookup res t m u) =
      s2.srem (pageOutKeyOf lookup res) (fmtMember t m) := by
  have h1 := splitFirst_append amp ("WRITE-CUBOID".toList)
      (lookup ++ (amp :: (res ++ (amp :: (t ++ (amp :: (m ++ (amp :: u))))))))
      amp_not_mem_write_cuboid
  have h2 : lookup ++ (amp :: (res ++ (amp :: (t ++ (amp :: (m ++ (amp :: u)))))))
      = (lookup ++ (amp :: (res ++ (amp :: (t ++ (amp :: m)))))) ++ (amp :: u) := by
    simp
  have h3 := rsplitLast_append amp
      (lookup ++ (amp :: (res ++ (amp :: (t ++ (amp :: m)))))) u hu
  have h4 : lookup ++ (amp :: (res ++ (amp :: (t ++ (amp :: m)))))
      = (lookup ++ (amp :: (res ++ (amp :: t)))) ++ (amp :: m) := by
    simp
  have h5 := rsplitLast_append amp (lookup ++ (amp :: (res ++ (amp :: t)))) m hm
  have h6 : lookup ++ (amp :: (res ++ (amp :: t)))
      = (lookup ++ (amp :: res)) ++ (amp :: t) := by
    simp
  have h7 := rsplitLast_append amp (lookup ++ (amp :: res)) t ht
  have h8 := rsplitLast_append amp lookup res hres
  simp only [remove_from_page_out, mintWriteCuboidKey, h1]
  rw [h2, h3]
  simp only []
  rw [h4, h5]
  simp only []
  rw [h6, h7]
  simp only []
  rw [h8]

/-- `add_to_page_out` leaves the page-out set with the member inserted. -/
theorem add_to_page_out_pageOut_sets (s : RedisState)
    (temp lookup res morton t : Key) (htemp : temp ≠ pageOutKeyOf lookup res) :
    (add_to_page_out s temp lookup res morton t).2.sets (pageOutKeyOf lookup res)
      = insert (fmtMember t morton) (s.sets (pageOutKeyOf lookup res)) := by
  have hne : ¬ (pageOutKeyOf lookup res = temp) := fun h => htemp h.symm
  simp [add_to_page_out, RedisState.sadd, RedisState.expire, updFn, hne]

/-- With a fresh scratch set, `add_to_page_out`'s flag is `false` exactly
when the member was absent from the page-out set before the call. -/
theorem add_to_page_out_flag_iff (s : RedisState)
    (temp lookup res morton t : Key)
    (hfresh : s.sets temp = ∅) (htemp : temp ≠ pageOutKeyOf lookup res) :
    ((add_to_page_out s temp lookup res morton t).1 = false ↔
      fmtMember t morton ∉ s.sets (pageOutKeyOf lookup res)) := by
  have hne : ¬ (pageOutKeyOf lookup res = temp) := fun h => htemp h.symm
  simp only [add_to_page_out, RedisState.sadd, RedisState.expire, updFn]
  simp only [if_pos rfl, if_neg hne, hfresh]
  by_cases hmem : fmtMember t morton ∈ s.sets (pageOutKeyOf lookup res)
  · have hempty :
        ({fmtMember t morton} : Finset Key) \ s.sets (pageOutKeyOf lookup res) = ∅ :=
      Finset.sdiff_eq_empty_iff_subset.mpr (Finset.singleton_subset_iff.mpr hmem)
    simp [hempty, hmem]
  · have hsdiff : fmtMember t morton ∈
        ({fmtMember t morton} : Finset Key) \ s.sets (pageOutKeyOf lookup res) :=
      Finset.mem_sdiff.mpr ⟨Finset.mem_singleton_self _, hmem⟩
    have hpos : 0 <
        (({fmtMember t morton} : Finset Key) \ s.sets (pageOutKeyOf lookup res)).card :=
      Finset.card_pos.mpr ⟨_, hsdiff⟩
    simp [hpos, hmem]

/-! ## Claim theorems -/

/-- C1: with a fresh (empty) scratch set key, `add_to_page_out` returns
`in_page_out = false` exactly when the member `<t>&<morton>` was not already
in `PAGE-OUT&<lookup>&<res>` before the call (and `true` when it was); in
both cases the member is in the page-out set afterwards, so of two calls for
the same tuple run one after the other (each with a fresh scratch key),
exactly the first returns `false`. -/
theorem add_to_page_out_owner_election
    (s : RedisState) (temp temp2 lookup res morton t : Key)
    (hfresh : s.sets temp = ∅)
    (htemp : temp ≠ pageOutKeyOf lookup res)
    (hfresh2 : (add_to_page_out s temp lookup res morton t).2.sets temp2 = ∅)
    (htemp2 : temp2 ≠ pageOutKeyOf lookup res) :
    ((add_to_page_out s temp lookup res morton t).1 = false ↔
        fmtMember t morton ∉ s.sets (pageOutKeyOf lookup res))
    ∧ fmtMember t morton ∈
        (add_to_page_out s temp lookup res morton t).2.sets (pageOutKeyOf lookup res)
    ∧ (fmtMember t morton ∉ s.sets (pageOutKeyOf lookup res) →
        (add_to_page_out s temp lookup res morton t).1 = false
        ∧ (add_to_page_out (add_to_page_out s temp lookup res morton t).2
              temp2 lookup res morton t).1 = true) := by
  refine ⟨add_to_page_out_flag_iff s temp lookup res morton t hfresh htemp, ?_, ?_⟩
  · rw [add_to_page_out_pageOut_sets s temp lookup res morton t htemp]
    exact Finset.mem_insert_self _ _
  · intro hnot
    refine ⟨(add_to_page_out_flag_iff s temp lookup res morton t hfresh htemp).mpr hnot, ?_⟩
    have h2 := add_to_page_out_flag_iff
        (add_to_page_out s temp lookup res morton t).2 temp2 lookup res morton t hfresh2 htemp2
    have hmem2 : fmtMember t morton ∈
        (add_to_page_out s temp lookup res morton t).2.sets (pageOutKeyOf lookup res) := by
      rw [add_to_page_out_pageOut_sets s temp lookup res morton t htemp]
      exact Finset.mem_insert_self _ _
    rcases Bool.eq_false_or_eq_true
        ((add_to_page_out (add_to_page_out s temp lookup res morton t).2
            temp2 lookup res morton t).1) with htrue | hf
    · exact htrue
    · exact absurd hmem2 (h2.mp hf)

/-- Witness for C1 at lookup `1&2&3`, res `0`, t `0`, morton `7`, scratch keys
`TEMP-A` and `TEMP-B`, starting from the empty database. -/
theorem add_to_page_out_owner_election_witness :
    ((add_to_page_out RedisState.empty ("TEMP-A".toList) ("1&2&3".toList) ("0".toList)
        ("7".toList) ("0".toList)).1 = false ↔
      fmtMember ("0".toList) ("7".toList) ∉
        RedisState.empty.sets (pageOutKeyOf ("1&2&3".toList) ("0".toList)))
    ∧ fmtMember ("0".toList) ("7".toList) ∈
        (add_to_page_out RedisState.empty ("TEMP-A".toList) ("1&2&3".toList) ("0".toList)
          ("7".toList) ("0".toList)).2.sets (pageOutKeyOf ("1&2&3".toList) ("0".toList))
    ∧ (fmtMember ("0".toList) ("7".toList) ∉
          RedisState.empty.sets (pageOutKeyOf ("1&2&3".toList) ("0".toList)) →
        (add_to_page_out RedisState.empty ("TEMP-A".toList) ("1&2&3".toList) ("0".toList)
          ("7".toList) ("0".toList)).1 = false
        ∧ (add_to_page_out
              (add_to_page_out RedisState.empty ("TEMP-A".toList) ("1&2&3".toList)
                ("0".toList) ("7".toList) ("0".toList)).2
              ("TEMP-B".toList) ("1&2&3".toList) ("0".toList) ("7".toList)
              ("0".toList)).1 = true) :=
  add_to_page_out_owner_election RedisState.empty ("TEMP-A".toList) ("TEMP-B".toList)
    ("1&2&3".toList) ("0".toList) ("7".toList) ("0".toList)
    rfl (by decide) (by decide) (by decide)

/-- C3: converting `WRITE-CUBOID&<lookup>&<res>&<t>&<morton>&<uuid>` strips
exactly the token before the first `&` and the uuid after the last `&`,
yielding the delayed-write queue key `DELAYED-WRITE&<lookup>&<res>&<t>&<morton>`
that `add_to_delayed_write` pushes to — for every lookup key, including ones
that themselves contain `&` (so in particular the `<int>&<int>&<int>` form);
only the uuid must be delimiter-free. -/
theorem write_cuboid_to_delayed_round_trip
    (s : RedisState) (wck resource lookup res t m u : Key) (hu : amp ∉ u) :
    write_cuboid_key_to_delayed_write_key (mintWriteCuboidKey lookup res t m u)
        = delayedWriteKeyOf lookup res t m
    ∧ add_to_delayed_write s wck lookup res m t resource
        = (s.rpush (write_cuboid_key_to_delayed_write_key
              (mintWriteCuboidKey lookup res t m u)) wck).setStr
            (resourceDelayedWriteKeyOf lookup res t m) resource := by
  have h1 := splitFirst_append amp ("WRITE-CUBOID".toList)
      (lookup ++ (amp :: (res ++ (amp :: (t ++ (amp :: (m ++ (amp :: u))))))))
      amp_not_mem_write_cuboid
  have h2 : lookup ++ (amp :: (res ++ (amp :: (t ++ (amp :: (m ++ (amp :: u)))))))
      = (lookup ++ (amp :: (res ++ (amp :: (t ++ (amp :: m)))))) ++ (amp :: u) := by
    simp
  have h3 := rsplitLast_append amp
      (lookup ++ (amp :: (res ++ (amp :: (t ++ (amp :: m)))))) u hu
  have hkey : write_cuboid_key_to_delayed_write_key (mintWriteCuboidKey lookup res t m u)
      = delayedWriteKeyOf lookup res t m := by
    simp only [write_cuboid_key_to_delayed_write_key, mintWriteCuboidKey,
      delayedWriteKeyOf, h1]
    rw [h2, h3]
  exact ⟨hkey, by rw [hkey]; rfl⟩

/-- Witness for C3 at lookup `1&2&3`, res `0`, t `0`, morton `7`,
uuid `a1b2`. -/
theorem write_cuboid_to_delayed_round_trip_witness :
    write_cuboid_key_to_delayed_write_key
        (mintWriteCuboidKey ("1&2&3".toList) ("0".toList) ("0".toList) ("7".toList)
          ("a1b2".toList))
        = delayedWriteKeyOf ("1&2&3".toList) ("0".toList) ("0".toList) ("7".toList)
    ∧ add_to_delayed_write RedisState.empty ("w".toList) ("1&2&3".toList) ("0".toList)
          ("7".toList) ("0".toList) ("r".toList)
        = (RedisState.empty.rpush (write_cuboid_key_to_delayed_write_key
              (mintWriteCuboidKey ("1&2&3".toList) ("0".toList) ("0".toList) ("7".toList)
                ("a1b2".toList))) ("w".toList)).setStr
            (resourceDelayedWriteKeyOf ("1&2&3".toList) ("0".toList) ("0".toList)
              ("7".toList)) ("r".toList) :=
  write_cuboid_to_delayed_round_trip RedisState.empty ("w".toList) ("r".toList)
    ("1&2&3".toList) ("0".toList) ("0".toList) ("7".toList) ("a1b2".toList) (by decide)

/-- C6: `remove_from_page_out` on the write-cuboid key of a tuple removes
exactly the member `<t>&<morton>` (time sample first) from
`PAGE-OUT&<lookup>&<res>` — the member `add_to_page_out` adds for that tuple —
so an add followed by the corresponding remove leaves the page-out set as it
was before, whenever the member was not already there. -/
theorem remove_from_page_out_undoes_add
    (s : RedisState) (temp lookup res t m u : Key)
    (hres : amp ∉ res) (ht : amp ∉ t) (hm : amp ∉ m) (hu : amp ∉ u)
    (htemp : temp ≠ pageOutKeyOf lookup res)
    (hnot : fmtMember t m ∉ s.sets (pageOutKeyOf lookup res)) :
    (∀ s2 : RedisState, remove_from_page_out s2 (mintWriteCuboidKey lookup res t m u)
        = s2.srem (pageOutKeyOf lookup res) (fmtMember t m))
    ∧ (remove_from_page_out (add_to_page_out s temp lookup res m t).2
          (mintWriteCuboidKey lookup res t m u)).sets (pageOutKeyOf lookup res)
        = s.sets (pageOutKeyOf lookup res) := by
  refine ⟨fun s2 => remove_from_page_out_parse s2 lookup res t m u hres ht hm hu, ?_⟩
  rw [remove_from_page_out_parse _ lookup res t m u hres ht hm hu]
  simp only [RedisState.srem, updFn, if_pos]
  rw [add_to_page_out_pageOut_sets s temp lookup res m t htemp]
  exact Finset.erase_insert hnot

/-- Witness for C6 at lookup `1&2&3`, res `0`, t `0`, morton `7`,
uuid `a1b2`, scratch key `TEMP-A`, starting from the empty database. -/
theorem remove_from_page_out_undoes_add_witness :
    (∀ s2 : RedisState, remove_from_page_out s2
          (mintWriteCuboidKey ("1&2&3".toList) ("0".toList) ("0".toList) ("7".toList)
            ("a1b2".toList))
        = s2.srem (pageOutKeyOf ("1&2&3".toList) ("0".toList))
            (fmtMember ("0".toList) ("7".toList)))
    ∧ (remove_from_page_out
          (add_to_page_out RedisState.empty ("TEMP-A".toList) ("1&2&3".toList)
            ("0".toList) ("7".toList) ("0".toList)).2
          (mintWriteCuboidKey ("1&2&3".toList) ("0".toList) ("0".toList) ("7".toList)
            ("a1b2".toList))).sets (pageOutKeyOf ("1&2&3".toList) ("0".toList))
        = RedisState.empty.sets (pageOutKeyOf ("1&2&3".toList) ("0".toList)) :=
  remove_from_page_out_undoes_add RedisState.empty ("TEMP-A".toList) ("1&2&3".toList)
    ("0".toList) ("0".toList) ("7".toList) ("a1b2".toList)
    (by decide) (by decide) (by decide) (by decide) (by decide) (by decide)

/-- C4: the elapsed-time check sits at the top of every `wait_for_page_in`
iteration: whenever the clock read at the top of an iteration exceeds the
timeout, the outcome is the async timeout error with the page-in channel
deleted, identically for every message the poll would have returned and every
continuation of the schedule — so no message is fetched or processed on the
timeout path, and an empty-message iteration cannot skip the check. -/
theorem wait_for_page_in_timeout_checked_first
    (page_in_channel : Key) (timeout elapsed : Nat) (remaining : Finset Key)
    (msg : Option PubSubMsg) (rest : List (Nat × Option PubSubMsg))
    (h : timeout < elapsed) :
    wait_for_page_in page_in_channel timeout remaining ((elapsed, msg) :: rest) =
      ⟨WaitResult.timedOut, remaining, true⟩ := by
  simp [wait_for_page_in, h]

/-- Witness for C4: with timeout 10 and the clock at 11, the loop times out
and deletes the channel even though the pending message would have completed
the wait. -/
theorem wait_for_page_in_timeout_checked_first_witness :
    wait_for_page_in ("PAGE-IN-CHANNEL&u1".toList) 10
 ({("CACHED-CUBOID&1&2&3&0&0&7".toList : Key)} : Finset Key)
        [(11, some ⟨("PAGE-IN-CHANNEL&u1".toList), msgTypeMessage,
            ("CACHED-CUBOID&1&2&3&0&0&7".toList)⟩)] =
      ⟨WaitResult.timedOut, {("CACHED-CUBOID&1&2&3&0&0&7".toList : Key)}, true⟩ :=
  wait_for_page_in_timeout_checked_first ("PAGE-IN-CHANNEL&u1".toList) 10 11
    ({("CACHED-CUBOID&1&2&3&0&0&7".toList : Key)} : Finset Key)
    (some ⟨("PAGE-IN-CHANNEL&u1".toList), msgTypeMessage,
      ("CACHED-CUBOID&1&2&3&0&0&7".toList)⟩) [] (by decide)

/-- Counterexample to C2 as stated: with one awaited key and a first data
message carrying a different (already-satisfied) key, the loop does not treat
the absent-member removal as a no-op and keep waiting — it raises (Python
`KeyError` from `keys_set.remove`), so it never reaches the second message
that would have completed the wait. -/
theorem wait_duplicate_notification_raises :
    (wait_for_page_in ("PAGE-IN-CHANNEL&u1".toList) 10
        ({("CACHED-CUBOID&1&2&3&0&0&7".toList : Key)} : Finset Key)
        [(0, some ⟨("PAGE-IN-CHANNEL&u1".toList), msgTypeMessage,
            ("CACHED-CUBOID&1&2&3&0&0&8".toList)⟩),
         (1, some ⟨("PAGE-IN-CHANNEL&u1".toList), msgTypeMessage,
            ("CACHED-CUBOID&1&2&3&0&0&7".toList)⟩)]).result
      = WaitResult.keyErrorStop
    ∧ WaitResult.keyErrorStop ≠ WaitResult.success := by
  exact ⟨by decide, by decide⟩

/-- C2 amended: in `wait_for_page_in`, a received data message whose payload
key is not (or is no longer) in the remaining wait set makes `keys_set.remove`
raise a `KeyError`, aborting the wait with the remaining keys untouched and
the channel not deleted; duplicate completion notifications are not
tolerated. -/
theorem wait_absent_member_raises
    (ch : Key) (timeout elapsed : Nat) (remaining : Finset Key) (m : PubSubMsg)
    (rest : List (Nat × Option PubSubMsg))
    (hT : ¬ timeout < elapsed) (hch : m.channel = ch) (hty : m.mtype = msgTypeMessage)
    (habs : m.data ∉ remaining) :
    wait_for_page_in ch timeout remaining ((elapsed, some m) :: rest) =
      ⟨WaitResult.keyErrorStop, remaining, false⟩ := by
  simp [wait_for_page_in, hT, hch, hty, habs]

/-- Witness for the amended C2 at a duplicate notification for an
already-removed key. -/
theorem wait_absent_member_raises_witness :
    wait_for_page_in ("PAGE-IN-CHANNEL&u1".toList) 10
        ({("CACHED-CUBOID&1&2&3&0&0&7".toList : Key)} : Finset Key)
        [(0, some ⟨("PAGE-IN-CHANNEL&u1".toList), msgTypeMessage,
            ("CACHED-CUBOID&1&2&3&0&0&8".toList)⟩)] =
      ⟨WaitResult.keyErrorStop,
        ({("CACHED-CUBOID&1&2&3&0&0&7".toList : Key)} : Finset Key), false⟩ :=
  wait_absent_member_raises ("PAGE-IN-CHANNEL&u1".toList) 10 0
    ({("CACHED-CUBOID&1&2&3&0&0&7".toList : Key)} : Finset Key)
    ⟨("PAGE-IN-CHANNEL&u1".toList), msgTypeMessage, ("CACHED-CUBOID&1&2&3&0&0&8".toList)⟩
    [] (by decide) rfl rfl (by decide)

/-- Counterexample to C5 as stated: a message from a different channel makes
the run fail with the async error, but `delete_page_in_channel` is never
called on that path — the outcome's channel-deleted flag is `false`, so the
subscription is not released. -/
theorem wait_wrong_channel_leaks_subscription :
    (wait_for_page_in ("PAGE-IN-CHANNEL&u1".toList) 10
        ({("CACHED-CUBOID&1&2&3&0&0&7".toList : Key)} : Finset Key)
        [(0, some ⟨("OTHER-CHANNEL&zz".toList), msgTypeMessage,
            ("CACHED-CUBOID&1&2&3&0&0&7".toList)⟩)]).result
      = WaitResult.wrongChannel
    ∧ ¬ (wait_for_page_in ("PAGE-IN-CHANNEL&u1".toList) 10
        ({("CACHED-CUBOID&1&2&3&0&0&7".toList : Key)} : Finset Key)
        [(0, some ⟨("OTHER-CHANNEL&zz".toList), msgTypeMessage,
            ("CACHED-CUBOID&1&2&3&0&0&7".toList)⟩)]).channelDeleted = true := by
  exact ⟨by decide, by decide⟩

/-- C5 amended: whenever a message arrives whose channel field differs from
the expected page-in channel, `wait_for_page_in` fails with the async error
and never processes the message as a completion (the remaining set is
unchanged), but it does not tear down: the channel is not deleted, so the
subscription leaks. -/
theorem wait_wrong_channel_fails_without_teardown
    (ch : Key) (timeout elapsed : Nat) (remaining : Finset Key) (m : PubSubMsg)
    (rest : List (Nat × Option PubSubMsg))
    (hT : ¬ timeout < elapsed) (hch : m.channel ≠ ch) :
    wait_for_page_in ch timeout remaining ((elapsed, some m) :: rest) =
      ⟨WaitResult.wrongChannel, remaining, false⟩ := by
  simp [wait_for_page_in, hT, hch]

/-- Witness for the amended C5. -/
theorem wait_wrong_channel_fails_without_teardown_witness :
    wait_for_page_in ("PAGE-IN-CHANNEL&u1".toList) 10
        ({("CACHED-CUBOID&1&2&3&0&0&7".toList : Key)} : Finset Key)
        [(0, some ⟨("OTHER-CHANNEL&zz".toList), msgTypeMessage,
            ("CACHED-CUBOID&1&2&3&0&0&7".toList)⟩)] =
      ⟨WaitResult.wrongChannel,
        ({("CACHED-CUBOID&1&2&3&0&0&7".toList : Key)} : Finset Key), false⟩ :=
  wait_wrong_channel_fails_without_teardown ("PAGE-IN-CHANNEL&u1".toList) 10 0
    ({("CACHED-CUBOID&1&2&3&0&0&7".toList : Key)} : Finset Key)
    ⟨("OTHER-CHANNEL&zz".toList), msgTypeMessage, ("CACHED-CUBOID&1&2&3&0&0&7".toList)⟩
    [] (by decide) (by decide)

/-- C7: `set_project_lock(lookup, True)` makes `WRITE-LOCK&<lookup>` exist and
`project_locked(lookup)` return `True`; `set_project_lock(lookup, False)`
deletes the key and `project_locked(lookup)` returns `False`;
`project_locked` reports exactly the presence of `WRITE-LOCK&<lookup>` (it is
defined as that presence), and either setting leaves the lock of every other
lookup key untouched. -/
theorem project_lock_round_trip
    (s : RedisState) (lookup other : Key) (b : Bool)
    (hne : other ≠ lookup) :
    project_locked (set_project_lock s lookup true) lookup = true
    ∧ (set_project_lock s lookup true).existsKey (writeLockKey lookup) = true
    ∧ project_locked (set_project_lock s lookup false) lookup = false
    ∧ (set_project_lock s lookup false).existsKey (writeLockKey lookup) = false
    ∧ (∀ s2 : RedisState, project_locked s2 lookup = s2.existsKey (writeLockKey lookup))
    ∧ project_locked (set_project_lock s lookup b) other = project_locked s other := by
  have hkey : writeLockKey other ≠ writeLockKey lookup := by
    intro h
    have h2 := List.append_cancel_left h
    simp only [List.cons.injEq] at h2
    exact hne h2.2
  refine ⟨?_, ?_, ?_, ?_, fun s2 => rfl, ?_⟩
  · simp [project_locked, set_project_lock, RedisState.setStr, RedisState.existsKey, updFn]
  · simp [set_project_lock, RedisState.setStr, RedisState.existsKey, updFn]
  · simp [project_locked, set_project_lock, RedisState.delKey, RedisState.existsKey, updFn]
  · simp [set_project_lock, RedisState.delKey, RedisState.existsKey, updFn]
  · cases b <;>
      simp [project_locked, set_project_lock, RedisState.setStr, RedisState.delKey,
        RedisState.existsKey, updFn, hkey]

/-- Witness for C7 at lookup `1&2&3` and the distinct lookup `9&9&9`, from
the empty database. -/
theorem project_lock_round_trip_witness :
    project_locked (set_project_lock RedisState.empty ("1&2&3".toList) true)
        ("1&2&3".toList) = true
    ∧ (set_project_lock RedisState.empty ("1&2&3".toList) true).existsKey
        (writeLockKey ("1&2&3".toList)) = true
    ∧ project_locked (set_project_lock RedisState.empty ("1&2&3".toList) false)
        ("1&2&3".toList) = false
    ∧ (set_project_lock RedisState.empty ("1&2&3".toList) false).existsKey
        (writeLockKey ("1&2&3".toList)) = false
    ∧ (∀ s2 : RedisState, project_locked s2 ("1&2&3".toList)
        = s2.existsKey (writeLockKey ("1&2&3".toList)))
    ∧ project_locked (set_project_lock RedisState.empty ("1&2&3".toList) true)
        ("9&9&9".toList) = project_locked RedisState.empty ("9&9&9".toList) :=
  project_lock_round_trip RedisState.empty ("1&2&3".toList) ("9&9&9".toList) true
    (by decide)

/-- C8: after `add_to_delayed_write`, the queue
`DELAYED-WRITE&<lookup>&<res>&<t>&<morton>` is non-empty with the write-cuboid
key at its tail, and the paired key
`RESOURCE-DELAYED-WRITE&<lookup>&<res>&<t>&<morton>` holds the resource
string — invariant I2 holds for the tuple, from any starting state. -/
theorem add_to_delayed_write_establishes_I2
    (s : RedisState) (wck lookup res morton t resource : Key) :
    (add_to_delayed_write s wck lookup res morton t resource).lists
        (delayedWriteKeyOf lookup res t morton) ≠ []
    ∧ ((add_to_delayed_write s wck lookup res morton t resource).lists
        (delayedWriteKeyOf lookup res t morton)).getLast? = some wck
    ∧ (add_to_delayed_write s wck lookup res morton t resource).strings
        (resourceDelayedWriteKeyOf lookup res t morton) = some resource := by
  refine ⟨?_, ?_, ?_⟩
  · simp [add_to_delayed_write, RedisState.rpush, RedisState.setStr, updFn]
  · simp [add_to_delayed_write, RedisState.rpush, RedisState.setStr, updFn,
      List.getLast?_concat]
  · simp [add_to_delayed_write, RedisState.rpush, RedisState.setStr, updFn]

/-- C9: `SpdbError.__init__` formats `args[2]` into its log line, so
constructing `SpdbError` with exactly two positional arguments — the form
used at every raise site in state.py (a message and an error code) — itself
raises `IndexError`; no error path can deliver an `SpdbError` carrying just
its message and code. -/
theorem spdb_error_two_args_raises_index_error (m c : Key) :
    spdbErrorInit [m, c] = Except.error PyExc.indexError := rfl

/-- C10: a `CacheStateDB` instance has a single listener slot:
`create_page_in_channel` overwrites it, so a second create before a delete
leaves the instance subscribed only to the second channel and the first
subscription is dropped; and `delete_page_in_channel` always unsubscribes the
argument pattern from and closes whatever listener the instance currently
holds, whichever channel name it is given. -/
theorem single_listener_slot
    (inst : CacheInstance) (u1 u2 ch : Key) (l : Listener)
    (hu : u1 ≠ u2) (hl : inst.listener = some l) :
    ((create_page_in_channel (create_page_in_channel inst u1).2 u2).2.listener
        = some ⟨{pageInChannelName u2}, false⟩)
    ∧ pageInChannelName u1 ∉ ({pageInChannelName u2} : Finset Key)
    ∧ delete_page_in_channel inst ch
        = some ⟨some ⟨l.subscribed.erase ch, true⟩⟩ := by
  have hch : pageInChannelName u1 ≠ pageInChannelName u2 := by
    intro h
    have h2 := List.append_cancel_left h
    simp only [List.cons.injEq] at h2
    exact hu h2.2
  refine ⟨rfl, ?_, ?_⟩
  · simp [hch]
  · simp [delete_page_in_channel, hl]

/-- Witness for C10: an instance holding a listener subscribed to channel
`PAGE-IN-CHANNEL&a`, a second create with uuid `b`, and a delete called with
an unrelated channel name. -/
theorem single_listener_slot_witness :
    ((create_page_in_channel
        (create_page_in_channel
          (⟨some ⟨{pageInChannelName ("a".toList)}, false⟩⟩ : CacheInstance)
          ("a".toList)).2 ("b".toList)).2.listener
        = some ⟨{pageInChannelName ("b".toList)}, false⟩)
    ∧ pageInChannelName ("a".toList) ∉ ({pageInChannelName ("b".toList)} : Finset Key)
    ∧ delete_page_in_channel
          (⟨some ⟨{pageInChannelName ("a".toList)}, false⟩⟩ : CacheInstance)
          ("PAGE-IN-CHANNEL&c".toList)
        = some ⟨some ⟨({pageInChannelName ("a".toList)} : Finset Key).erase
            ("PAGE-IN-CHANNEL&c".toList), true⟩⟩ :=
  single_listener_slot
    (⟨some ⟨{pageInChannelName ("a".toList)}, false⟩⟩ : CacheInstance)
    ("a".toList) ("b".toList) ("PAGE-IN-CHANNEL&c".toList)
    ⟨{pageInChannelName ("a".toList)}, false⟩ (by decide) rfl
